import Mathlib

/-!
Verification of the conversation-orchestration core of the Character-Simulator
repository (src/book_chat/core.py and src/book_chat/anthropic_client.py).

The Python source is shallowly embedded: every LLM round trip is replaced by
an explicit oracle value of type `Except Unit String` (`.error` models a
raised transport exception, `.ok raw` the text the provider returned), and the
standard-library pieces the source leans on (`json.loads`, `str.strip`,
`str.splitlines`, substring search, truthiness) are modelled as executable
Lean functions whose behaviour matches CPython on the inputs the claims
exercise.  All definitions are computable so concrete runs evaluate by `rfl`
or `decide`.
-/

/-- A JSON value as `json.loads` produces it.  Integer literals become `num`
(Python `int`); numeric literals with a fraction or exponent, and the Python
extensions `NaN`/`Infinity`, become `numF` carrying the lexeme (Python
`float`, whose arithmetic the claims never touch).  Objects keep their fields
in parse order, duplicates included; lookups take the last occurrence, as a
Python `dict` built by repeated insertion does. -/
inductive Json where
  | null
  | bool (b : Bool)
  | num (n : Int)
  | numF (lexeme : String)
  | str (s : String)
  | arr (items : List Json)
  | obj (fields : List (String × Json))
deriving Repr

/-- `d.get(key)` on the dict for `obj fields`: the last binding wins. -/
def dictGet (fields : List (String × Json)) (key : String) : Option Json :=
  (fields.reverse.find? (fun p => p.1 == key)).map Prod.snd

/-- `d.get(key, dflt)`. -/
def dictGetD (fields : List (String × Json)) (key : String) (dflt : Json) : Json :=
  (dictGet fields key).getD dflt

/-- Whether the mantissa of a float lexeme has a nonzero digit (model of the
truthiness of a Python float parsed from JSON; exponent under/overflow is not
modelled, no claim touches float values). -/
def floatLexTruthy (lexeme : String) : Bool :=
  (lexeme.data.takeWhile (fun c => c ≠ 'e' ∧ c ≠ 'E')).any
    (fun c => '1' ≤ c ∧ c ≤ '9')

/-- Python truthiness of a value parsed from JSON: `None`, `False`, zero,
the empty string, the empty list and the empty dict are falsy. -/
def jsonTruthy : Json → Bool
  | .null => false
  | .bool b => b
  | .num n => n ≠ 0
  | .numF lexeme => floatLexTruthy lexeme
  | .str s => s ≠ ""
  | .arr items => ¬ items.isEmpty
  | .obj fields => ¬ fields.isEmpty

/-- Whether the value is a Python dict (callers invoke `.get` on it). -/
def Json.isObj : Json → Bool
  | .obj _ => true
  | _ => false

/-! ### Python string helpers -/

/-- The whitespace `str.strip()` removes (the ASCII part of `str.isspace`). -/
def pyIsSpace (c : Char) : Bool :=
  c = ' ' ∨ c = '\t' ∨ c = '\n' ∨ c = '\r' ∨ c = '\x0b' ∨ c = '\x0c'

/-- Python `s.strip()`. -/
def pyStrip (s : String) : String :=
  ⟨((s.data.dropWhile pyIsSpace).reverse.dropWhile pyIsSpace).reverse⟩

/-- The line boundaries `str.splitlines` recognises. -/
def pyIsLineBreak (c : Char) : Bool :=
  c = '\n' ∨ c = '\r' ∨ c = '\x0b' ∨ c = '\x0c' ∨
  c = '\x1c' ∨ c = '\x1d' ∨ c = '\x1e' ∨ c = '\x85' ∨
  c = ' ' ∨ c = ' '

/-- `s.splitlines()[0]` for nonempty `s` (the text before the first line
boundary); the source never indexes the empty case. -/
def firstSplitLine (s : String) : String :=
  ⟨s.data.takeWhile (fun c => ¬ pyIsLineBreak c)⟩

/-- Python `s.lower()` (the ASCII case mapping; the candidate names the
source compares are ASCII). -/
def pyLower (s : String) : String := ⟨s.data.map Char.toLower⟩

/-- Python `needle in hay` for strings (contiguous substring). -/
def occursIn (needle : List Char) : List Char → Bool
  | [] => needle.isEmpty
  | c :: t => needle.isPrefixOf (c :: t) || occursIn needle t

/-- Python `hay.find(needle)` restricted to the found case: the first index
at which `needle` occurs. -/
def firstIndexOfSub (needle : List Char) : List Char → Option Nat
  | [] => if needle.isEmpty then some 0 else none
  | c :: t =>
    if needle.isPrefixOf (c :: t) then some 0
    else (firstIndexOfSub needle t).map (· + 1)

/-! ### A model of `json.loads`

A fuel-indexed recursive-descent parser for RFC 8259 JSON plus the CPython
extensions (`NaN`, `Infinity`, `-Infinity`), rejecting trailing data the way
`json.loads` raises `Extra data`.  `\uXXXX` escapes decode a single code
unit; surrogate-pair recombination is not modelled (no claim exercises it). -/

/-- JSON insignificant whitespace. -/
def jsonWsChar (c : Char) : Bool :=
  c = ' ' ∨ c = '\t' ∨ c = '\n' ∨ c = '\r'

def skipWs : List Char → List Char
  | [] => []
  | c :: t => if jsonWsChar c then skipWs t else c :: t

def hexDigitVal (c : Char) : Option Nat :=
  if '0' ≤ c ∧ c ≤ '9' then some (c.toNat - '0'.toNat)
  else if 'a' ≤ c ∧ c ≤ 'f' then some (c.toNat - 'a'.toNat + 10)
  else if 'A' ≤ c ∧ c ≤ 'F' then some (c.toNat - 'A'.toNat + 10)
  else none

def escapeChar (c : Char) : Option Char :=
  if c = '"' then some '"'
  else if c = '\\' then some '\\'
  else if c = '/' then some '/'
  else if c = 'b' then some '\x08'
  else if c = 'f' then some '\x0c'
  else if c = 'n' then some '\n'
  else if c = 'r' then some '\r'
  else if c = 't' then some '\t'
  else none

/-- Body of a JSON string after the opening quote: the decoded characters and
the input after the closing quote.  Raw control characters are rejected as
`json.loads` does in (default) strict mode. -/
def parseStringChars : List Char → Option (List Char × List Char)
  | [] => none
  | '"' :: rest => some ([], rest)
  | '\\' :: 'u' :: h1 :: h2 :: h3 :: h4 :: rest => do
    let a ← hexDigitVal h1
    let b ← hexDigitVal h2
    let c ← hexDigitVal h3
    let d ← hexDigitVal h4
    let (s, r) ← parseStringChars rest
    some (Char.ofNat (((a * 16 + b) * 16 + c) * 16 + d) :: s, r)
  | '\\' :: e :: rest => do
    let c ← escapeChar e
    let (s, r) ← parseStringChars rest
    some (c :: s, r)
  | '\\' :: [] => none
  | c :: rest =>
    if c.toNat < 32 then none
    else do
      let (s, r) ← parseStringChars rest
      some (c :: s, r)

def isDigitChar (c : Char) : Bool := '0' ≤ c ∧ c ≤ '9'

def digitsToNat (ds : List Char) : Nat :=
  ds.foldl (fun a c => a * 10 + (c.toNat - '0'.toNat)) 0

/-- A JSON number starting at the head of the input (also `-Infinity`).
Follows the number regex `json.scanner` uses: an int part (`0` or a nonzero
digit followed by digits), an optional `.digits` fraction and an optional
exponent; whatever follows is left unconsumed, so `01` parses as `0` with
`1` left over and the caller then fails, exactly as CPython reports it. -/
def parseNumberAux (cs : List Char) : Option (Json × List Char) :=
  let (neg, cs1) :=
    match cs with
    | '-' :: t => (true, t)
    | _ => (false, cs)
  match cs1 with
  | 'I' :: 'n' :: 'f' :: 'i' :: 'n' :: 'i' :: 't' :: 'y' :: rest =>
    some (.numF (if neg then "-Infinity" else "Infinity"), rest)
  | c :: t =>
    if isDigitChar c then
      let (intDigits, rest1) :=
        if c = '0' then ([c], t)
        else (c :: t.takeWhile isDigitChar, t.dropWhile isDigitChar)
      let (fracDigits, rest2) :=
        match rest1 with
        | '.' :: u =>
          if (u.takeWhile isDigitChar).isEmpty then ([], rest1)
          else (u.takeWhile isDigitChar, u.dropWhile isDigitChar)
        | _ => ([], rest1)
      let (expChars, rest3) :=
        match rest2 with
        | e :: u =>
          if e = 'e' ∨ e = 'E' then
            let (sgn, v) :=
              match u with
              | s :: w => if s = '+' ∨ s = '-' then ([s], w) else ([], u)
              | [] => ([], u)
            if (v.takeWhile isDigitChar).isEmpty then ([], rest2)
            else (e :: (sgn ++ v.takeWhile isDigitChar), v.dropWhile isDigitChar)
          else ([], rest2)
        | [] => ([], rest2)
      if fracDigits.isEmpty ∧ expChars.isEmpty then
        let n : Int := Int.ofNat (digitsToNat intDigits)
        some (.num (if neg then -n else n), rest3)
      else
        some (.numF ⟨(if neg then ['-'] else []) ++ intDigits ++
          (if fracDigits.isEmpty then [] else '.' :: fracDigits) ++ expChars⟩, rest3)
    else none
  | [] => none

mutual

/-- One JSON value starting at the head of the input (whitespace skipped). -/
def parseValue : Nat → List Char → Option (Json × List Char)
  | 0, _ => none
  | Nat.succ fuel, cs =>
    match skipWs cs with
    | '"' :: rest => (parseStringChars rest).map (fun p => (.str ⟨p.1⟩, p.2))
    | '\x7b' :: rest =>
      match skipWs rest with
      | '\x7d' :: rest2 => some (.obj [], rest2)
      | _ => (parseMembers fuel rest).map (fun p => (.obj p.1, p.2))
    | '[' :: rest =>
      match skipWs rest with
      | ']' :: rest2 => some (.arr [], rest2)
      | _ => (parseItems fuel rest).map (fun p => (.arr p.1, p.2))
    | 't' :: 'r' :: 'u' :: 'e' :: rest => some (.bool true, rest)
    | 'f' :: 'a' :: 'l' :: 's' :: 'e' :: rest => some (.bool false, rest)
    | 'n' :: 'u' :: 'l' :: 'l' :: rest => some (.null, rest)
    | 'N' :: 'a' :: 'N' :: rest => some (.numF "NaN", rest)
    | other => parseNumberAux other

/-- The members of an object, positioned after `\x7b` with at least one
member present, up to and including the closing brace. -/
def parseMembers : Nat → List Char → Option (List (String × Json) × List Char)
  | 0, _ => none
  | Nat.succ fuel, cs =>
    match skipWs cs with
    | '"' :: rest =>
      match parseStringChars rest with
      | none => none
      | some (key, rest2) =>
        match skipWs rest2 with
        | ':' :: rest3 =>
          match parseValue fuel rest3 with
          | none => none
          | some (v, rest4) =>
            match skipWs rest4 with
            | ',' :: rest5 =>
              (parseMembers fuel rest5).map (fun p => ((⟨key⟩, v) :: p.1, p.2))
            | '\x7d' :: rest5 => some ([(⟨key⟩, v)], rest5)
            | _ => none
        | _ => none
    | _ => none

/-- The items of an array, positioned after `[` with at least one item
present, up to and including the closing bracket. -/
def parseItems : Nat → List Char → Option (List Json × List Char)
  | 0, _ => none
  | Nat.succ fuel, cs =>
    match parseValue fuel cs with
    | none => none
    | some (v, rest) =>
      match skipWs rest with
      | ',' :: rest2 => (parseItems fuel rest2).map (fun p => (v :: p.1, p.2))
      | ']' :: rest2 => some ([v], rest2)
      | _ => none

end

/-- `json.loads`: parse one value and require only whitespace after it
(otherwise CPython raises `Extra data`).  The fuel exceeds the length of any
chain of nested parser calls, each of which consumes at least one character
before recursing. -/
def json_loads (s : String) : Option Json :=
  match parseValue (s.data.length + 2) s.data with
  | some (v, rest) => if (skipWs rest).isEmpty then some v else none
  | none => none

/-! ### `parse_json_response` (core.py lines 19-64) -/

/-- The fallback dict of `parse_json_response`: `\x7bfallback_key: raw\x7d`
when a truthy key was given, else `\x7b"text": raw\x7d` (Python tests the
key with `if fallback_key:`, so an empty-string key also falls to "text"). -/
def jsonFallback (raw : String) (fallback_key : Option String) : Json :=
  match fallback_key with
  | some k => if k = "" then .obj [("text", .str raw)] else .obj [(k, .str raw)]
  | none => .obj [("text", .str raw)]

/-- `parse_json_response`: strip the raw text, try `json.loads` on the whole
of it, then (when the stripped first line is nonempty and differs from the
whole) on the first line alone, and fall back to the single-key dict when
both attempts fail. -/
def parse_json_response (response : String) (fallback_key : Option String) : Json :=
  match json_loads (pyStrip response) with
  | some data => data
  | none =>
    if pyStrip (firstSplitLine (pyStrip response)) ≠ "" ∧
        pyStrip (firstSplitLine (pyStrip response)) ≠ pyStrip response then
      match json_loads (pyStrip (firstSplitLine (pyStrip response))) with
      | some data => data
      | none => jsonFallback (pyStrip response) fallback_key
    else jsonFallback (pyStrip response) fallback_key

/-! ### `ClaudeClient` (anthropic_client.py) -/

/-- `ClaudeClient.count_tokens`: `len(text) // 4`. -/
def count_tokens (text : String) : Nat :=
  text.length / 4

/-- The return-value plumbing of the prefill: every return site runs
`if assistant_prefill: return assistant_prefill + text` (an empty prefill is
falsy and skipped). -/
def prefillConcat (assistant_prefill : Option String) (text : String) : String :=
  match assistant_prefill with
  | some p => if p = "" then text else p ++ text
  | none => text

/-- `ClaudeClient.send_message`.  The provider round trip is the oracle
`llm`; an `.error` models the SDK raising, which `send_message` logs and
re-raises.  All three return paths (streaming to a callback, streaming to
stdout, non-streaming) concatenate the prefill onto the generated text the
same way. -/
def send_message (stream useCallback : Bool) (assistant_prefill : Option String)
    (llm : Except Unit String) : Except Unit String :=
  match llm with
  | .error e => .error e
  | .ok completion =>
    if stream then
      if useCallback then .ok (prefillConcat assistant_prefill completion)
      else .ok (prefillConcat assistant_prefill completion)
    else .ok (prefillConcat assistant_prefill completion)

/-! ### Python `str()` of parsed JSON values

Only needed where the source interpolates a parsed value into an f-string
(`f"\x7bspeaker.name\x7d: \x7bdialogue\x7d"`).  Dialogue and scene values
are strings on every path the claims exercise; the container cases follow
Python's repr shape (quote escaping inside repr is not modelled). -/

mutual

def pyRepr : Json → String
  | .null => "None"
  | .bool true => "True"
  | .bool false => "False"
  | .num n => toString n
  | .numF lexeme => lexeme
  | .str s => "\x27" ++ s ++ "\x27"
  | .arr items => "[" ++ pyReprItems items ++ "]"
  | .obj fields => "\x7b" ++ pyReprFields fields ++ "\x7d"

def pyReprItems : List Json → String
  | [] => ""
  | [j] => pyRepr j
  | j :: rest => pyRepr j ++ ", " ++ pyReprItems rest

def pyReprFields : List (String × Json) → String
  | [] => ""
  | [(k, v)] => "\x27" ++ k ++ "\x27: " ++ pyRepr v
  | (k, v) :: rest => "\x27" ++ k ++ "\x27: " ++ pyRepr v ++ ", " ++ pyReprFields rest

end

def pyStr : Json → String
  | .str s => s
  | j => pyRepr j

/-! ### `Character` (core.py lines 67-271) -/

/-- A character: its name and backstory (the shared client is the oracle
passed at each call site). -/
structure Character where
  name : String
  backstory : String
deriving DecidableEq, Repr

/-- `Character.wants_to_respond`: requires `\x7b"wants_to_respond": bool\x7d`
from the LLM; a raised transport error, unparseable JSON (the fallback dict
then carries a string), a missing field, a non-boolean value, or a non-dict
JSON reply (whose `.get` raises and is caught) all yield `False`. -/
def wants_to_respond (llm : Except Unit String) : Bool :=
  match llm with
  | .error _ => false
  | .ok raw =>
    match parse_json_response raw (some "wants_to_respond") with
    | .obj fields =>
      match dictGet fields "wants_to_respond" with
      | some (.bool b) => b
      | _ => false
    | _ => false

/-- The assistant prefill `Character.respond` sends. -/
def dialoguePrefill : String := "\x7b\"dialogue\": \""

/-- The recovery in `Character.respond` when the prefonted reply is not valid
JSON: locate `"dialogue":`, strip what follows, and take the text between the
next pair of quotes (to the end when no closing quote); otherwise the whole
response becomes the dialogue. -/
def extractDialogueFallback (response : String) : Json :=
  if occursIn "\"dialogue\":".data response.data then
    let start := (firstIndexOfSub "\"dialogue\":".data response.data).getD 0 +
      "\"dialogue\":".length
    let rest := pyStrip ⟨response.data.drop start⟩
    match rest.data with
    | '"' :: body =>
      match firstIndexOfSub ['"'] body with
      | some e => .str ⟨body.take e⟩
      | none => .str ⟨body⟩
    | _ => .str response
  else .str response

/-- The JSON-or-recovery parsing stage of `Character.respond`: `json.loads`
on the full (prefill-led) response; on success take `dialogue` (default `""`)
and `behavior` (default `None`); a non-dict success raises uncaught (the
`except` clause only catches `JSONDecodeError`); on decode failure run the
string recovery with no behavior. -/
def respondParse (response : String) : Except Unit (Json × Json) :=
  match json_loads response with
  | some (.obj fields) =>
    .ok (dictGetD fields "dialogue" (.str ""), dictGetD fields "behavior" .null)
  | some _ => .error ()
  | none => .ok (extractDialogueFallback response, .null)

/-- The AI path of `Character.respond`: send with the dialogue prefill
(exceptions propagate — there is no try around the send) and parse. -/
def respond_ai (llm : Except Unit String) : Except Unit (Json × Json) :=
  match send_message false false (some dialoguePrefill) llm with
  | .error e => .error e
  | .ok response => respondParse response

/-- What `Character.respond` returns: the human-controlled path returns the
player's text as a bare string, the AI path a `(dialogue, behavior)` tuple. -/
inductive RespondResult where
  | bare (s : String)
  | pair (dialogue : Json) (behavior : Json)
deriving Repr

/-- `Character.respond`.  `selectedCharacter` is
`gui_window.get_selected_character()` when a GUI is attached (`none` covers
both no GUI and no selection); when it names this character, the blocking
`wait_for_player_input` result `playerInput` is returned as a bare string,
`""` when the player cancelled (`None`).  Otherwise the AI path runs. -/
def respond (selectedCharacter : Option String) (name : String)
    (playerInput : Option String) (llm : Except Unit String) :
    Except Unit RespondResult :=
  if selectedCharacter = some name then
    match playerInput with
    | none => .ok (.bare "")
    | some text => .ok (.bare text)
  else
    (respond_ai llm).map (fun p => .pair p.1 p.2)

/-- The caller-side normalisation in `Conversation.start`
(`if isinstance(result, tuple): ... else: dialogue, behavior = result, None`). -/
def normalizeResult : RespondResult → Json × Json
  | .bare s => (.str s, .null)
  | .pair d b => (d, b)

/-! ### `Narrator.choose_next_speaker` (core.py lines 389-537) -/

/-- Exact case-insensitive name equality
(`character.name.lower() == choice_name.lower()`). -/
def lowerEq (c : Character) (s : String) : Bool :=
  pyLower c.name == pyLower s

/-- The substring test of the second matching pass
(`character.name.lower() in choice_name.lower() or
choice_name.lower() in character.name.lower()`). -/
def substrRel (c : Character) (s : String) : Bool :=
  occursIn (pyLower c.name).data (pyLower s).data ||
  occursIn (pyLower s).data (pyLower c.name).data

/-- The two matching passes over the candidates: the first exact
case-insensitive match, else the first substring match in either direction,
else no match. -/
def matchChoice (characters : List Character) (choiceName : String) :
    Option Character :=
  match characters.find? (fun c => lowerEq c choiceName) with
  | some c => some c
  | none => characters.find? (fun c => substrRel c choiceName)

/-- `(d.get(key) or "").strip()` as the source applies it to `title`,
`next_speaker` and `situation`: a missing or falsy value gives `""`; a
truthy string is stripped; a truthy non-string makes `.strip()` raise
`AttributeError` (`.error`). -/
def pyOrEmptyStrip (v : Option Json) : Except Unit String :=
  match v with
  | none => .ok ""
  | some j =>
    if jsonTruthy j then
      match j with
      | .str s => .ok (pyStrip s)
      | _ => .error ()
    else .ok ""

/-- One attempt of the retry loop: a raised send (`.error`), an unparseable
reply, a reply that is not a JSON object (its `.get` raises and the attempt's
`except` catches it), a missing/falsy/whitespace-only `next_speaker` (a
truthy non-string value makes `.strip()` raise, which the same `except`
catches), or a name that matches no candidate, all yield no speaker and the
loop continues. -/
def chooseAttempt (characters : List Character) (llm : Except Unit String) :
    Option Character :=
  match llm with
  | .error _ => none
  | .ok raw =>
    match json_loads raw with
    | none => none
    | some (.obj fields) =>
      match pyOrEmptyStrip (dictGet fields "next_speaker") with
      | .error _ => none
      | .ok choiceName =>
        if choiceName = "" then none else matchChoice characters choiceName
    | some _ => none

/-- `Narrator.choose_next_speaker`: `None` for no candidates, the sole
candidate without any LLM call, and otherwise up to two attempts before the
deterministic fall back to the first candidate. -/
def choose_next_speaker (characters : List Character)
    (llm1 llm2 : Except Unit String) : Option Character :=
  match characters with
  | [] => none
  | [c] => some c
  | c0 :: c1 :: rest =>
    match chooseAttempt (c0 :: c1 :: rest) llm1 with
    | some c => some c
    | none =>
      match chooseAttempt (c0 :: c1 :: rest) llm2 with
      | some c => some c
      | none => some c0

/-- How many times `choose_next_speaker` calls `send_message`: none on the
cheap paths; with two or more candidates one call when the first attempt
resolves a speaker, else both attempts run. -/
def choose_next_speaker_llm_calls (characters : List Character)
    (llm1 : Except Unit String) : Nat :=
  match characters with
  | [] => 0
  | [_] => 0
  | c0 :: c1 :: rest => if (chooseAttempt (c0 :: c1 :: rest) llm1).isSome then 1 else 2

/-! ### `Narrator.generate_story_setup` (core.py lines 296-387) -/

/-- The assistant prefill `generate_story_setup` sends. -/
def titlePrefill : String := "\x7b\"title\": \""

/-- `Narrator.generate_story_setup`: send with the title prefill (a raised
send re-raises through the outer handler), `json.loads` the full response
(failure raises `ValueError`), and raise unless the stripped `title` is a
nonempty string; on success return the parsed setup unchanged — the
`opening_scene` and `characters` fields are never validated. -/
def generate_story_setup (llm : Except Unit String) : Except Unit Json :=
  match send_message false false (some titlePrefill) llm with
  | .error e => .error e
  | .ok response =>
    match json_loads response with
    | none => .error ()
    | some (.obj fields) =>
      match pyOrEmptyStrip (dictGet fields "title") with
      | .error e => .error e
      | .ok title => if title = "" then .error () else .ok (.obj fields)
    | some _ => .error ()

/-! ### `Narrator.narrate_scene` (core.py lines 619-750) -/

/-- Phase one of `narrate_scene`: the structured yes/no decision.  A raised
send or a reply without a boolean `needs_narration` (including the fallback
dict after a parse failure, and a non-dict reply whose `.get` raises into
the surrounding handler) counts as "no narration". -/
def needsNarration (decisionLLM : Except Unit String) : Bool :=
  match decisionLLM with
  | .error _ => false
  | .ok raw =>
    match parse_json_response raw (some "needs_narration") with
    | .obj fields =>
      match dictGet fields "needs_narration" with
      | some (.bool b) => b
      | _ => false
    | _ => false

/-- `Narrator.narrate_scene`: when phase one says yes, `json.loads` the
generation reply directly (no `parse_json_response` here) and take its
`scene` field (default `""`); any failure in either phase yields `""`
(narration is cosmetic).  The returned value is whatever `.get` produced —
the caller, not this function, applies truthiness and string formatting. -/
def narrate_scene (decisionLLM genLLM : Except Unit String) : Json :=
  if needsNarration decisionLLM then
    match genLLM with
    | .error _ => .str ""
    | .ok genRaw =>
      match json_loads genRaw with
      | some (.obj fields) => dictGetD fields "scene" (.str "")
      | some _ => .str ""
      | none => .str ""
  else .str ""

/-! ### `Conversation` history trimming (core.py lines 793-807) -/

/-- The module-level `MAX_HISTORY_TOKENS`. -/
def MAX_HISTORY_TOKENS : Nat := 20000

/-- One history entry, `\x7b"role": ..., "content": ...\x7d`. -/
structure Entry where
  role : String
  content : String
deriving DecidableEq, Repr

/-- The running total the trimmer starts from: the sum of
`count_tokens(msg["content"])` over the history. -/
def totalTokens : List Entry → Nat
  | [] => 0
  | e :: rest => count_tokens e.content + totalTokens rest

/-- The `while total_tokens > MAX_HISTORY_TOKENS and len(self.history) > 1`
loop: pop the front and subtract its count (the total is a Python int, hence
`Int` here). -/
def trimAux : List Entry → Int → List Entry
  | [], _ => []
  | e :: rest, total =>
    if (MAX_HISTORY_TOKENS : Int) < total ∧ rest ≠ [] then
      trimAux rest (total - count_tokens e.content)
    else e :: rest

/-- `Conversation.trim_history_to_token_limit`. -/
def trim_history_to_token_limit (history : List Entry) : List Entry :=
  trimAux history (totalTokens history)

/-! ### The body of the `Conversation.start` turn loop (core.py lines 852-1164)

The round is embedded for the CLI configuration the source defaults to:
`gui_window=None` (so `get_selected_character()` resolves to no one and the
player-hint branch is skipped) and `tts_client=None` (the TTS branches only
display text and enqueue audio; they never touch the history).  The quit
poll at the top of the round is the "no quit requested" case; a quit simply
breaks before any of the work modelled here. -/

/-- Truthiness of `self.last_speaker_name` (an `Option String`):
`None` and `""` are falsy. -/
def optStrTruthy : Option String → Bool
  | none => false
  | some s => s ≠ ""

/-- The per-round oracle: one slot per `send_message` call site the round can
reach.  Interest polls are indexed by the character's position. -/
structure RoundOracle where
  wants1 : Nat → Except Unit String
  situation : Except Unit String
  wants2 : Nat → Except Unit String
  choose1 : Except Unit String
  choose2 : Except Unit String
  narrationDecision : Except Unit String
  narrationGen : Except Unit String
  respondLLM : Except Unit String

/-- How many `send_message` calls of each kind the round made. -/
structure RoundCalls where
  interestPolls : Nat
  situationCalls : Nat
  chooseCalls : Nat
  narrationDecisionCalls : Nat
  narrationGenCalls : Nat
  respondCalls : Nat
deriving DecidableEq, Repr

/-- How the round left the loop. -/
inductive RoundExit where
  | continued (speaker : String)
  | endedNoSituation
  | endedNoInterest
  | endedNoSpeaker
  | raisedInRespond
deriving DecidableEq, Repr

structure RoundResult where
  history : List Entry
  exit : RoundExit
  calls : RoundCalls
deriving DecidableEq, Repr

/-- The `for character in self.characters: if character.wants_to_respond(...)`
collection pass: every character is polled, in order. -/
def pollInterest (characters : List Character) (oracle : Nat → Except Unit String) :
    List Character :=
  (characters.enum.filter (fun p => wants_to_respond (oracle p.1))).map Prod.snd

/-- The parsing applied to the situation reply:
`parse_json_response(raw, fallback_key="situation")` then
`(parsed.get("situation") or "").strip()`; a non-dict reply makes `.get`
raise into the surrounding `except`, which breaks the loop. -/
def situationFromReply (raw : String) : Except Unit String :=
  match parse_json_response raw (some "situation") with
  | .obj fields => pyOrEmptyStrip (dictGet fields "situation")
  | _ => .error ()

/-- The optional scene-description entry: only from the second turn on and
only when the previous speaker is known (`if turn > 0 and
self.last_speaker_name:`); the description is appended only when truthy. -/
def sceneEntries (turnIdx : Nat) (lastSpeaker : Option String)
    (decisionLLM genLLM : Except Unit String) : List Entry :=
  if 0 < turnIdx ∧ optStrTruthy lastSpeaker then
    let scene := narrate_scene decisionLLM genLLM
    if jsonTruthy scene then [⟨"user", "[Scene: " ++ pyStr scene ++ "]"⟩] else []
  else []

/-- The history line for a resolved turn:
`f"\x7bspeaker.name\x7d: \x7bdialogue\x7d"`, with
`" [behavior: \x7bbehavior\x7d]"` appended when the behavior is truthy. -/
def speakerContent (name : String) (dialogue behavior : Json) : String :=
  name ++ ": " ++ pyStr dialogue ++
    (if jsonTruthy behavior then " [behavior: " ++ pyStr behavior ++ "]" else "")

/-- The tail of the round once an interested set is in hand: choose the
speaker, maybe narrate the previous beat, let the speaker respond (a raised
respond propagates out of `start`), then append the attributed assistant
line and the synthetic continuation nudge. -/
def finishTurn (histIn : List Entry) (turnIdx : Nat) (lastSpeaker : Option String)
    (o : RoundOracle) (interested : List Character) (polls sits : Nat) :
    RoundResult :=
  match choose_next_speaker interested o.choose1 o.choose2 with
  | none =>
    ⟨histIn, .endedNoSpeaker,
      ⟨polls, sits, choose_next_speaker_llm_calls interested o.choose1, 0, 0, 0⟩⟩
  | some speaker =>
    let cc := choose_next_speaker_llm_calls interested o.choose1
    let narrating := 0 < turnIdx ∧ optStrTruthy lastSpeaker
    let ndc := if narrating then 1 else 0
    let ngc := if narrating ∧ needsNarration o.narrationDecision then 1 else 0
    let hist2 := histIn ++ sceneEntries turnIdx lastSpeaker o.narrationDecision o.narrationGen
    match respond none speaker.name none o.respondLLM with
    | .error _ => ⟨hist2, .raisedInRespond, ⟨polls, sits, cc, ndc, ngc, 1⟩⟩
    | .ok r =>
      let p := normalizeResult r
      ⟨hist2 ++ [⟨"assistant", speakerContent speaker.name p.1 p.2⟩,
          ⟨"user", "Continue the conversation."⟩],
        .continued speaker.name, ⟨polls, sits, cc, ndc, ngc, 1⟩⟩

/-- One full round of the `for turn in range(max_turns)` loop: trim the
history, poll everyone's interest, on silence attempt the narrator's
situation injection (a raised send, a raise inside the parsing, or an empty
situation breaks the loop; a nonempty one is appended as a `user` entry and
interest re-polled exactly once, breaking when still nobody answers), then
finish the turn with the interested set. -/
def runRound (characters : List Character) (history0 : List Entry) (turnIdx : Nat)
    (lastSpeaker : Option String) (o : RoundOracle) : RoundResult :=
  let history := trim_history_to_token_limit history0
  let n := characters.length
  match pollInterest characters o.wants1 with
  | [] =>
    match (o.situation.bind situationFromReply : Except Unit String) with
    | .error _ => ⟨history, .endedNoSituation, ⟨n, 1, 0, 0, 0, 0⟩⟩
    | .ok s =>
      if s = "" then ⟨history, .endedNoSituation, ⟨n, 1, 0, 0, 0, 0⟩⟩
      else
        let history2 := history ++ [⟨"user", "[Situation: " ++ s ++ "]"⟩]
        match pollInterest characters o.wants2 with
        | [] => ⟨history2, .endedNoInterest, ⟨2 * n, 1, 0, 0, 0, 0⟩⟩
        | c2 :: i2 => finishTurn history2 turnIdx lastSpeaker o (c2 :: i2) (2 * n) 1
  | c1 :: i1 => finishTurn history turnIdx lastSpeaker o (c1 :: i1) n 0

/-! ## Shared lemmas -/

theorem matchChoice_mem {cs : List Character} {s : String} {c : Character}
    (h : matchChoice cs s = some c) : c ∈ cs := by
  unfold matchChoice at h
  split at h
  · next heq => cases h; exact List.mem_of_find?_eq_some heq
  · exact List.mem_of_find?_eq_some h

theorem chooseAttempt_mem {cs : List Character} {llm : Except Unit String}
    {c : Character} (h : chooseAttempt cs llm = some c) : c ∈ cs := by
  unfold chooseAttempt at h
  split at h
  · cases h
  · split at h
    · cases h
    · split at h
      · cases h
      · split at h
        · cases h
        · exact matchChoice_mem h
    · cases h


theorem trimAux_suffix (h : List Entry) : ∀ t : Int, trimAux h t <:+ h := by
  induction h with
  | nil => intro t; exact List.suffix_refl _
  | cons e rest ih =>
    intro t
    unfold trimAux
    split
    · exact (ih _).trans (List.suffix_cons e rest)
    · exact List.suffix_refl _

theorem trimAux_ne_nil (h : List Entry) : ∀ t : Int, h ≠ [] → trimAux h t ≠ [] := by
  induction h with
  | nil => intro t hh; exact absurd rfl hh
  | cons e rest ih =>
    intro t _
    unfold trimAux
    split
    · next hcond => exact ih _ hcond.2
    · simp

theorem trimAux_budget (h : List Entry) :
    totalTokens (trimAux h (totalTokens h)) ≤ MAX_HISTORY_TOKENS
    ∨ (trimAux h (totalTokens h)).length = 1 := by
  induction h with
  | nil => left; simp [trimAux, totalTokens]
  | cons e rest ih =>
    unfold trimAux
    split
    · next hcond =>
      have hcast : ((totalTokens (e :: rest) : Int) - count_tokens e.content) =
          (totalTokens rest : Int) := by
        simp only [totalTokens]
        push_cast
        ring
      rw [hcast]
      exact ih
    · next hcond =>
      by_cases hm : (MAX_HISTORY_TOKENS : Int) < (totalTokens (e :: rest) : Int)
      · have hrest : rest = [] := by
          by_contra hr
          exact hcond ⟨hm, hr⟩
        subst hrest
        right
        rfl
      · left
        exact_mod_cast not_lt.mp hm

/-! ## The claims -/

/-- Claim C2: `parse_json_response` returns the parsed dict on the three
concrete probes, and universally the first-line recovery is reached only when
the whole-string parse fails, with the fallback dict produced exactly when
both parses fail. -/
theorem C2_parse_json_response_spec :
    parse_json_response "\x7b\"a\": 1\x7d" (some "x") = Json.obj [("a", Json.num 1)]
  ∧ parse_json_response "not json" (some "x") = Json.obj [("x", Json.str "not json")]
  ∧ parse_json_response "\x7b\"a\":1\x7d\nextra prose" (some "x") =
      Json.obj [("a", Json.num 1)]
  ∧ (∀ (s : String) (k : Option String) (d : Json),
      json_loads (pyStrip s) = some d → parse_json_response s k = d)
  ∧ (∀ (s : String) (k : Option String),
      json_loads (pyStrip s) = none →
      json_loads (pyStrip (firstSplitLine (pyStrip s))) = none →
      parse_json_response s k = jsonFallback (pyStrip s) k) := by
  refine ⟨rfl, rfl, rfl, ?_, ?_⟩
  · intro s k d h
    unfold parse_json_response
    rw [h]
  · intro s k h1 h2
    unfold parse_json_response
    simp only [h1]
    split
    · simp only [h2]
    · rfl

/-- Claim C2, witness: the whole-string branch applied at a concrete input. -/
theorem C2_parse_json_response_spec_witness :
    parse_json_response "  \x7b\x7d  " (some "k") = Json.obj [] :=
  C2_parse_json_response_spec.2.2.2.1 "  \x7b\x7d  " (some "k") (Json.obj []) rfl

/-- Claim C3: trimming removes entries only from the front (the result is a
suffix of the input, so survivors keep their order), never empties a nonempty
history, and afterwards the approximate total is within the budget or exactly
one entry remains. -/
theorem C3_trim_history_spec (history : List Entry) :
    trim_history_to_token_limit history <:+ history
  ∧ (history ≠ [] → trim_history_to_token_limit history ≠ [])
  ∧ (totalTokens (trim_history_to_token_limit history) ≤ MAX_HISTORY_TOKENS
      ∨ (trim_history_to_token_limit history).length = 1) := by
  refine ⟨trimAux_suffix history _, fun hne => trimAux_ne_nil history _ hne, ?_⟩
  exact trimAux_budget history

/-- Claim C3, witness: the nonemptiness guarantee at a concrete history. -/
theorem C3_trim_history_spec_witness :
    trim_history_to_token_limit [⟨"user", "hi"⟩] ≠ [] :=
  (C3_trim_history_spec [⟨"user", "hi"⟩]).2.1 (by decide)

/-- Claim C5, counterexample: in the human-controlled path `respond` returns
the player's text as a bare string, not the pair `(text, null)` the claim
states (the tuple shape only appears after the caller in `Conversation.start`
normalises a non-tuple result). -/
theorem C5_respond_human_counterexample :
    respond (some "Alice") "Alice" (some "hi") (.error ()) = .ok (.bare "hi")
  ∧ respond (some "Alice") "Alice" (some "hi") (.error ()) ≠
      .ok (.pair (.str "hi") .null) := by
  refine ⟨rfl, ?_⟩
  intro h
  simp [respond] at h

/-- Claim C5 (amended): when the character is the externally selected
(human-controlled) one, `respond` returns the awaited text as a bare string —
`""` when the collaborator signals cancellation — without consulting the LLM,
and the caller's normalisation step turns that bare string into the pair
`(text, null)` (respectively `("", null)`). -/
theorem C5_respond_human_amended :
    (∀ (name text : String) (llm : Except Unit String),
      respond (some name) name (some text) llm = .ok (.bare text)
        ∧ normalizeResult (.bare text) = (.str text, .null))
  ∧ (∀ (name : String) (llm : Except Unit String),
      respond (some name) name none llm = .ok (.bare "")
        ∧ normalizeResult (.bare "") = (.str "", .null)) := by
  constructor
  · intro name text llm
    exact ⟨by simp [respond], rfl⟩
  · intro name llm
    exact ⟨by simp [respond], rfl⟩

/-- Claim C6: `wants_to_respond` never raises: a raised transport call, a
non-dict reply, a missing `wants_to_respond` field, or a non-boolean value
all yield `false`; a boolean field value is returned as is. -/
theorem C6_wants_to_respond_spec :
    (∀ e, wants_to_respond (.error e) = false)
  ∧ (∀ (raw : String) (fields : List (String × Json)) (b : Bool),
      parse_json_response raw (some "wants_to_respond") = .obj fields →
      dictGet fields "wants_to_respond" = some (.bool b) →
      wants_to_respond (.ok raw) = b)
  ∧ (∀ (raw : String) (fields : List (String × Json)),
      parse_json_response raw (some "wants_to_respond") = .obj fields →
      dictGet fields "wants_to_respond" = none →
      wants_to_respond (.ok raw) = false)
  ∧ (∀ (raw : String) (fields : List (String × Json)) (v : Json),
      parse_json_response raw (some "wants_to_respond") = .obj fields →
      dictGet fields "wants_to_respond" = some v → (∀ b, v ≠ .bool b) →
      wants_to_respond (.ok raw) = false)
  ∧ (∀ raw : String,
      (parse_json_response raw (some "wants_to_respond")).isObj = false →
      wants_to_respond (.ok raw) = false) := by
  refine ⟨fun e => rfl, ?_, ?_, ?_, ?_⟩
  · intro raw fields b hp hg
    unfold wants_to_respond
    simp only [hp, hg]
  · intro raw fields hp hg
    unfold wants_to_respond
    simp only [hp, hg]
  · intro raw fields v hp hg hnb
    unfold wants_to_respond
    simp only [hp, hg]
    cases v <;> first | rfl | exact absurd rfl (hnb _)
  · intro raw hno
    unfold wants_to_respond
    cases hpj : parse_json_response raw (some "wants_to_respond") with
    | obj fields =>
      rw [hpj] at hno
      simp [Json.isObj] at hno
    | null => simp only [hpj]
    | bool b => simp only [hpj]
    | num n => simp only [hpj]
    | numF lexeme => simp only [hpj]
    | str s => simp only [hpj]
    | arr items => simp only [hpj]

/-- Claim C6, witness: a boolean reply is returned, at a concrete input. -/
theorem C6_wants_to_respond_spec_witness :
    wants_to_respond (.ok "\x7b\"wants_to_respond\": true\x7d") = true :=
  C6_wants_to_respond_spec.2.1 "\x7b\"wants_to_respond\": true\x7d"
    [("wants_to_respond", .bool true)] true rfl rfl

/-- Claim C10: `send_message` returns the prefill concatenated with the
completion whenever a prefill is supplied (every return path — streaming with
a callback, streaming to stdout, non-streaming — concatenates identically)
and the completion alone otherwise; `Character.respond` parses exactly that
concatenation, a string that begins with the `\x7b"dialogue": "` prefill. -/
theorem C10_send_message_prefill_spec :
    (∀ (stream useCallback : Bool) (p completion : String),
      send_message stream useCallback (some p) (.ok completion) =
        .ok (p ++ completion))
  ∧ (∀ (stream useCallback : Bool) (completion : String),
      send_message stream useCallback none (.ok completion) = .ok completion)
  ∧ (∀ completion : String,
      respond_ai (.ok completion) = respondParse (dialoguePrefill ++ completion))
  ∧ (∀ completion : String,
      dialoguePrefill.data <+: (dialoguePrefill ++ completion).data) := by
  have hconcat : ∀ (stream useCallback : Bool) (p completion : String),
      send_message stream useCallback (some p) (.ok completion) =
        .ok (p ++ completion) := by
    intro stream useCallback p completion
    by_cases hp : p = ""
    · subst hp
      cases stream <;> cases useCallback <;> simp [send_message, prefillConcat]
    · cases stream <;> cases useCallback <;> simp [send_message, prefillConcat, hp]
  refine ⟨hconcat, ?_, ?_, ?_⟩
  · intro stream useCallback completion
    cases stream <;> cases useCallback <;> rfl
  · intro completion
    unfold respond_ai
    rw [hconcat false false dialoguePrefill completion]
  · intro completion
    rw [String.data_append]
    exact List.prefix_append _ _

theorem titlePrefill_send (completion : String) :
    send_message false false (some titlePrefill) (.ok completion) =
      .ok (titlePrefill ++ completion) := rfl

theorem choose_next_speaker_cons (c0 c1 : Character) (rest : List Character)
    (llm1 llm2 : Except Unit String) :
    choose_next_speaker (c0 :: c1 :: rest) llm1 llm2 =
      match chooseAttempt (c0 :: c1 :: rest) llm1 with
      | some c => some c
      | none =>
        match chooseAttempt (c0 :: c1 :: rest) llm2 with
        | some c => some c
        | none => some c0 := rfl

theorem choose_next_speaker_llm_calls_cons (c0 c1 : Character)
    (rest : List Character) (llm1 : Except Unit String) :
    choose_next_speaker_llm_calls (c0 :: c1 :: rest) llm1 =
      if (chooseAttempt (c0 :: c1 :: rest) llm1).isSome then 1 else 2 := rfl

/-- Claim C4, counterexample: a reply whose parsed setup has a nonempty
title but an EMPTY opening scene and an EMPTY character list is returned
normally — `generate_story_setup` only validates the title, so the claim
that it raises on a missing opening scene or character list is false.  The
completion shown extends the `\x7b"title": "` prefill to the full response
`\x7b"title": "T", "opening_scene": "", "characters": []\x7d`. -/
theorem C4_setup_counterexample :
    generate_story_setup
        (.ok "T\", \"opening_scene\": \"\", \"characters\": []\x7d") =
      .ok (Json.obj [("title", Json.str "T"), ("opening_scene", Json.str ""),
        ("characters", Json.arr [])]) := rfl

/-- Claim C4 (amended): `generate_story_setup` raises whenever the LLM call
itself raises, the full response is not valid JSON, the parsed value is not
a dict, or the extracted title is empty (or `.strip()` raises on a truthy
non-string title); when the title is a nonempty string the parsed setup is
returned unchanged, with no validation of `opening_scene` or `characters`. -/
theorem C4_setup_title_only_validation :
    (∀ e, generate_story_setup (.error e) = .error e)
  ∧ (∀ completion : String,
      json_loads (titlePrefill ++ completion) = none →
      generate_story_setup (.ok completion) = .error ())
  ∧ (∀ (completion : String) (fields : List (String × Json)),
      json_loads (titlePrefill ++ completion) = some (.obj fields) →
      pyOrEmptyStrip (dictGet fields "title") = .ok "" →
      generate_story_setup (.ok completion) = .error ())
  ∧ (∀ (completion : String) (fields : List (String × Json)) (title : String),
      json_loads (titlePrefill ++ completion) = some (.obj fields) →
      pyOrEmptyStrip (dictGet fields "title") = .ok title → title ≠ "" →
      generate_story_setup (.ok completion) = .ok (.obj fields)) := by
  refine ⟨fun e => rfl, ?_, ?_, ?_⟩
  · intro completion hl
    unfold generate_story_setup
    rw [titlePrefill_send completion]
    simp only [hl]
  · intro completion fields hl ht
    unfold generate_story_setup
    rw [titlePrefill_send completion]
    simp only [hl, ht, if_pos]
  · intro completion fields title hl ht hne
    unfold generate_story_setup
    rw [titlePrefill_send completion]
    simp only [hl, ht]
    rw [if_neg hne]

/-- Claim C4, witness: an unparseable response raises, at a concrete input. -/
theorem C4_setup_title_only_validation_witness :
    generate_story_setup (.ok "not even json") = .error () :=
  C4_setup_title_only_validation.2.1 "not even json" rfl

/-- Claim C1: for a non-empty candidate list `choose_next_speaker` always
returns a member of the list, whatever the two LLM attempts produce (raised
transport errors, malformed JSON, non-matching names included); within an
attempt the matching runs exact case-insensitive first, then substring in
either direction, and when both attempts fail to match, the first candidate
in original order is returned. -/
theorem C1_choose_next_speaker_total (cs : List Character) (hne : cs ≠ []) :
    (∀ llm1 llm2, ∃ c, choose_next_speaker cs llm1 llm2 = some c ∧ c ∈ cs)
  ∧ (∀ s : String, (∃ c, c ∈ cs ∧ lowerEq c s = true) →
      ∃ c, matchChoice cs s = some c ∧ c ∈ cs ∧ lowerEq c s = true)
  ∧ (∀ s : String, (∀ c, c ∈ cs → lowerEq c s = false) →
      (∃ c, c ∈ cs ∧ substrRel c s = true) →
      ∃ c, matchChoice cs s = some c ∧ c ∈ cs ∧ substrRel c s = true)
  ∧ (∀ llm1 llm2, chooseAttempt cs llm1 = none → chooseAttempt cs llm2 = none →
      choose_next_speaker cs llm1 llm2 = some (cs.head hne)) := by
  refine ⟨?_, ?_, ?_, ?_⟩
  · intro llm1 llm2
    match cs, hne with
    | [c], _ => exact ⟨c, rfl, List.mem_singleton_self c⟩
    | c0 :: c1 :: rest, _ =>
      cases h1 : chooseAttempt (c0 :: c1 :: rest) llm1 with
      | some c =>
        exact ⟨c, by rw [choose_next_speaker_cons, h1], chooseAttempt_mem h1⟩
      | none =>
        cases h2 : chooseAttempt (c0 :: c1 :: rest) llm2 with
        | some c =>
          exact ⟨c, by rw [choose_next_speaker_cons, h1, h2], chooseAttempt_mem h2⟩
        | none =>
          exact ⟨c0, by rw [choose_next_speaker_cons, h1, h2],
            List.mem_cons_self c0 _⟩
  · rintro s ⟨c, hc, hl⟩
    have hsome : (cs.find? (fun c => lowerEq c s)).isSome :=
      List.find?_isSome.mpr ⟨c, hc, hl⟩
    obtain ⟨c', hf⟩ := Option.isSome_iff_exists.mp hsome
    have hp : lowerEq c' s = true := by simpa using List.find?_some hf
    refine ⟨c', ?_, List.mem_of_find?_eq_some hf, hp⟩
    unfold matchChoice
    rw [hf]
  · rintro s hnone ⟨c, hc, hsub⟩
    have hf1 : cs.find? (fun c => lowerEq c s) = none :=
      List.find?_eq_none.mpr (fun x hx => by simp [hnone x hx])
    have hsome : (cs.find? (fun c => substrRel c s)).isSome :=
      List.find?_isSome.mpr ⟨c, hc, hsub⟩
    obtain ⟨c', hf⟩ := Option.isSome_iff_exists.mp hsome
    have hp : substrRel c' s = true := by simpa using List.find?_some hf
    refine ⟨c', ?_, List.mem_of_find?_eq_some hf, hp⟩
    unfold matchChoice
    rw [hf1, hf]
  · intro llm1 llm2 h1 h2
    match cs, hne with
    | [c], _ => rfl
    | c0 :: c1 :: rest, _ =>
      rw [choose_next_speaker_cons, h1, h2]
      rfl

/-- Claim C1, witness: both attempts fail (a parse error, then a transport
error), so the fallback returns the first candidate of a concrete pair. -/
theorem C1_choose_next_speaker_total_witness :
    choose_next_speaker [⟨"Alice", "a"⟩, ⟨"Bob", "b"⟩] (.ok "garbage")
      (.error ()) = some ⟨"Alice", "a"⟩ :=
  (C1_choose_next_speaker_total [⟨"Alice", "a"⟩, ⟨"Bob", "b"⟩]
    (by decide)).2.2.2 (.ok "garbage") (.error ()) rfl rfl

/-- Claim C9: no candidates yields `None`; one candidate is returned with
zero LLM calls; with two or more candidates and a first reply that is
well-formed and names a candidate, that candidate is returned after exactly
one LLM call. -/
theorem C9_choose_next_speaker_cheap_paths :
    (∀ llm1 llm2, choose_next_speaker [] llm1 llm2 = none)
  ∧ (∀ (c : Character) llm1 llm2,
      choose_next_speaker [c] llm1 llm2 = some c
        ∧ choose_next_speaker_llm_calls [c] llm1 = 0)
  ∧ (∀ (c0 c1 : Character) (rest : List Character) (c : Character) llm1 llm2,
      chooseAttempt (c0 :: c1 :: rest) llm1 = some c →
      choose_next_speaker (c0 :: c1 :: rest) llm1 llm2 = some c
        ∧ choose_next_speaker_llm_calls (c0 :: c1 :: rest) llm1 = 1) := by
  refine ⟨fun llm1 llm2 => rfl, fun c llm1 llm2 => ⟨rfl, rfl⟩, ?_⟩
  intro c0 c1 rest c llm1 llm2 h1
  constructor
  · rw [choose_next_speaker_cons, h1]
  · rw [choose_next_speaker_llm_calls_cons, h1]
    rfl

/-- Claim C9, witness: a two-candidate list with a well-formed first reply
resolves in one call; the second oracle slot (a raised error) is never used. -/
theorem C9_choose_next_speaker_cheap_paths_witness :
    choose_next_speaker [⟨"Alice", "a"⟩, ⟨"Bob", "b"⟩]
        (.ok "\x7b\"next_speaker\": \"Bob\"\x7d") (.error ()) = some ⟨"Bob", "b"⟩
      ∧ choose_next_speaker_llm_calls [⟨"Alice", "a"⟩, ⟨"Bob", "b"⟩]
        (.ok "\x7b\"next_speaker\": \"Bob\"\x7d") = 1 :=
  C9_choose_next_speaker_cheap_paths.2.2 ⟨"Alice", "a"⟩ ⟨"Bob", "b"⟩ []
    ⟨"Bob", "b"⟩ (.ok "\x7b\"next_speaker\": \"Bob\"\x7d") (.error ()) (by decide)

/-- Claim C7, counterexample: a round in which no character wants to respond
but the narrator's situation call raises a transport error.  The claim says
every such round injects exactly one situation entry and re-polls interest
exactly once; here the history gains NO situation entry and the single
character is polled exactly once (`interestPolls = 1`, not `2`) before the
conversation ends. -/
theorem C7_no_interest_counterexample :
    runRound [⟨"Alice", "a"⟩] [⟨"user", "opening"⟩] 1 (some "Alice")
      ⟨fun _ => .ok "\x7b\"wants_to_respond\": false\x7d", .error (),
        fun _ => .ok "\x7b\"wants_to_respond\": false\x7d", .error (), .error (),
        .error (), .error (), .error ()⟩ =
      ⟨[⟨"user", "opening"⟩], .endedNoSituation, ⟨1, 1, 0, 0, 0, 0⟩⟩ := rfl

/-- Claim C7 (amended): in a round where no character wants to respond, the
orchestrator makes exactly one situation call; when it yields a nonempty
situation string, exactly one `user` entry `[Situation: ...]` is appended and
every character's interest is re-polled exactly once, and if still nobody is
interested the conversation ends in the no-interest terminal state with no
further LLM calls (no speaker choice, no narration, no respond call); when
the situation call raises or yields an empty situation, the conversation
ends at once with no injection and no re-poll. -/
theorem C7_no_interest_round (chars : List Character) (history0 : List Entry)
    (turnIdx : Nat) (lastSpeaker : Option String) (o : RoundOracle)
    (h1 : pollInterest chars o.wants1 = []) :
    (∀ s : String, o.situation.bind situationFromReply = .ok s → s ≠ "" →
      pollInterest chars o.wants2 = [] →
      runRound chars history0 turnIdx lastSpeaker o =
        ⟨trim_history_to_token_limit history0 ++
            [⟨"user", "[Situation: " ++ s ++ "]"⟩],
          .endedNoInterest, ⟨2 * chars.length, 1, 0, 0, 0, 0⟩⟩)
  ∧ (∀ e : Unit, o.situation = .error e →
      runRound chars history0 turnIdx lastSpeaker o =
        ⟨trim_history_to_token_limit history0, .endedNoSituation,
          ⟨chars.length, 1, 0, 0, 0, 0⟩⟩) := by
  constructor
  · intro s hs hne h2
    unfold runRound
    simp only [h1, hs, h2]
    rw [if_neg hne]
  · intro e he
    unfold runRound
    simp only [h1, he, Except.bind]

/-- Claim C7, witness: two silent characters, a successful situation
injection, and a silent re-poll end the round in the no-interest state with
exactly the injected entry appended and `2 * 2` interest polls made. -/
theorem C7_no_interest_round_witness :
    runRound [⟨"Alice", "a"⟩, ⟨"Bob", "b"⟩] [⟨"user", "opening"⟩] 3 (some "Bob")
      ⟨fun _ => .ok "\x7b\"wants_to_respond\": false\x7d",
        .ok "\x7b\"situation\": \"Bang.\"\x7d",
        fun _ => .ok "\x7b\"wants_to_respond\": false\x7d", .error (), .error (),
        .error (), .error (), .error ()⟩ =
      ⟨[⟨"user", "opening"⟩, ⟨"user", "[Situation: Bang.]"⟩],
        .endedNoInterest, ⟨4, 1, 0, 0, 0, 0⟩⟩ :=
  (C7_no_interest_round [⟨"Alice", "a"⟩, ⟨"Bob", "b"⟩] [⟨"user", "opening"⟩] 3
    (some "Bob")
    ⟨fun _ => .ok "\x7b\"wants_to_respond\": false\x7d",
      .ok "\x7b\"situation\": \"Bang.\"\x7d",
      fun _ => .ok "\x7b\"wants_to_respond\": false\x7d", .error (), .error (),
      .error (), .error (), .error ()⟩ rfl).1 "Bang." rfl (by decide) rfl

/-- The situation entry the round injected, reconstructed from the oracle:
empty unless the first poll found nobody and the situation reply parsed to a
nonempty string (a projection of the branch `runRound` takes, used to state
what a resolved turn appended; `C7_no_interest_round` covers the branches
where the round ends instead). -/
def situationEntriesOf (characters : List Character) (o : RoundOracle) : List Entry :=
  match pollInterest characters o.wants1 with
  | [] =>
    match (o.situation.bind situationFromReply : Except Unit String) with
    | .error _ => []
    | .ok s => if s = "" then [] else [⟨"user", "[Situation: " ++ s ++ "]"⟩]
  | _ :: _ => []

theorem situationEntriesOf_role (characters : List Character) (o : RoundOracle) :
    ∀ e ∈ situationEntriesOf characters o, e.role = "user" := by
  intro e he
  unfold situationEntriesOf at he
  split at he
  · split at he
    · exact absurd he (List.not_mem_nil e)
    · split at he
      · exact absurd he (List.not_mem_nil e)
      · rw [List.mem_singleton.mp he]
  · exact absurd he (List.not_mem_nil e)

theorem sceneEntries_role (turnIdx : Nat) (lastSpeaker : Option String)
    (decisionLLM genLLM : Except Unit String) :
    ∀ e ∈ sceneEntries turnIdx lastSpeaker decisionLLM genLLM, e.role = "user" := by
  intro e he
  unfold sceneEntries at he
  split at he
  · dsimp only at he
    split at he
    · rw [List.mem_singleton.mp he]
    · exact absurd he (List.not_mem_nil e)
  · exact absurd he (List.not_mem_nil e)

theorem finishTurn_continued {histIn : List Entry} {turnIdx : Nat}
    {lastSpeaker : Option String} {o : RoundOracle} {interested : List Character}
    {polls sits : Nat} {name : String} {d b : Json}
    (hr : respond_ai o.respondLLM = .ok (d, b))
    (hx : (finishTurn histIn turnIdx lastSpeaker o interested polls sits).exit =
      .continued name) :
    (finishTurn histIn turnIdx lastSpeaker o interested polls sits).history =
      histIn ++ sceneEntries turnIdx lastSpeaker o.narrationDecision o.narrationGen ++
      [⟨"assistant", speakerContent name d b⟩,
        ⟨"user", "Continue the conversation."⟩] := by
  cases hc : choose_next_speaker interested o.choose1 o.choose2 with
  | none =>
    unfold finishTurn at hx
    simp only [hc] at hx
    simp at hx
  | some speaker =>
    have hresp : respond none speaker.name none o.respondLLM = .ok (.pair d b) := by
      unfold respond
      rw [if_neg (by simp), hr]
      rfl
    unfold finishTurn at hx ⊢
    simp only [hc, hresp, normalizeResult] at hx ⊢
    cases hx
    rfl

/-- Claim C8: whenever the round resolves a speaker turn, the history equals
the trimmed incoming history, then only `user`-role injected entries (the
optional situation and scene descriptions), then exactly one assistant entry
`"\x7bname\x7d: \x7bdialogue\x7d"` with the trailing
`" [behavior: \x7bbehavior\x7d]"` present exactly when the returned behavior
is truthy, immediately followed by exactly one synthetic
`\x7b"role": "user", "content": "Continue the conversation."\x7d` entry. -/
theorem C8_turn_appends (chars : List Character) (history0 : List Entry)
    (turnIdx : Nat) (lastSpeaker : Option String) (o : RoundOracle)
    (name : String) (d b : Json)
    (hr : respond_ai o.respondLLM = .ok (d, b))
    (hx : (runRound chars history0 turnIdx lastSpeaker o).exit = .continued name) :
    (runRound chars history0 turnIdx lastSpeaker o).history =
      trim_history_to_token_limit history0 ++ situationEntriesOf chars o ++
      sceneEntries turnIdx lastSpeaker o.narrationDecision o.narrationGen ++
      [⟨"assistant", name ++ ": " ++ pyStr d ++
          (if jsonTruthy b then " [behavior: " ++ pyStr b ++ "]" else "")⟩,
        ⟨"user", "Continue the conversation."⟩]
  ∧ ∀ e ∈ situationEntriesOf chars o ++
        sceneEntries turnIdx lastSpeaker o.narrationDecision o.narrationGen,
      e.role = "user" := by
  constructor
  · unfold runRound at hx ⊢
    unfold situationEntriesOf
    cases h1 : pollInterest chars o.wants1 with
    | nil =>
      simp only [h1] at hx ⊢
      cases hsit : (o.situation.bind situationFromReply : Except Unit String) with
      | error e0 =>
        simp only [hsit] at hx
        simp at hx
      | ok s =>
        simp only [hsit] at hx ⊢
        by_cases hs0 : s = ""
        · rw [if_pos hs0] at hx
          simp at hx
        · rw [if_neg hs0] at hx ⊢
          cases h2 : pollInterest chars o.wants2 with
          | nil =>
            simp only [h2] at hx
            simp at hx
          | cons c2 i2 =>
            simp only [h2] at hx ⊢
            rw [finishTurn_continued hr hx]
            simp [speakerContent, List.append_assoc, hs0]
    | cons c1 i1 =>
      simp only [h1] at hx ⊢
      rw [finishTurn_continued hr hx]
      simp [speakerContent, List.append_assoc]
  · intro e he
    rcases List.mem_append.mp he with h | h
    · exact situationEntriesOf_role chars o e h
    · exact sceneEntries_role _ _ _ _ e h

/-- Claim C8, witness: a first-turn round where both characters are
interested, the narrator names Bob, and Bob's reply carries no behavior;
exactly the attributed assistant line and the continuation nudge are
appended. -/
theorem C8_turn_appends_witness :
    (runRound [⟨"Alice", "a"⟩, ⟨"Bob", "b"⟩] [⟨"user", "opening"⟩] 0 none
      ⟨fun _ => .ok "\x7b\"wants_to_respond\": true\x7d", .error (),
        fun _ => .ok "\x7b\"wants_to_respond\": false\x7d",
        .ok "\x7b\"next_speaker\": \"Bob\"\x7d", .error (),
        .error (), .error (), .ok "Hello there.\"\x7d"⟩).history =
      [⟨"user", "opening"⟩, ⟨"assistant", "Bob: Hello there."⟩,
        ⟨"user", "Continue the conversation."⟩] :=
  (C8_turn_appends [⟨"Alice", "a"⟩, ⟨"Bob", "b"⟩] [⟨"user", "opening"⟩] 0 none
    ⟨fun _ => .ok "\x7b\"wants_to_respond\": true\x7d", .error (),
      fun _ => .ok "\x7b\"wants_to_respond\": false\x7d",
      .ok "\x7b\"next_speaker\": \"Bob\"\x7d", .error (),
      .error (), .error (), .ok "Hello there.\"\x7d"⟩
    "Bob" (.str "Hello there.") .null rfl rfl).1
